import Mathlib

/-!
Verification development for the speech-to-text backend (`src/main.py`).

The only original algorithm is the keyword search over transcript segments
(`search_keyword`, the `/search` handler). The remaining handlers
(`upload_video`, `youtube`, `generate_clip`) are plumbing around external
tools (ffmpeg, yt-dlp) and the filesystem; we embed them as explicit
state-passing functions over a filesystem model, with an environment record
describing the outcome of each external call (success / failure, partial
files left behind).

Python floats are modelled as rationals; `round(x, 2)` is modelled with
Mathlib's `round` at two decimal places; Python's `needle in hay` substring
test on strings is modelled as list-infix on the underlying character lists;
`str.lower` as `strLower` (ASCII case mapping), `str.strip` as `strStrip`.
-/

namespace SpeechBackend

/-- Python's `str.lower` (ASCII case mapping). -/
def strLower (s : String) : String := String.mk (s.data.map Char.toLower)

/-- Python's `str.strip`: remove leading and trailing whitespace. -/
def strStrip (s : String) : String :=
  String.mk
    (((s.data.dropWhile Char.isWhitespace).reverse.dropWhile
        Char.isWhitespace).reverse)

/-- Python's `needle in hay` substring containment on strings. -/
def containsSub (needle hay : String) : Bool :=
  decide (needle.data <:+: hay.data)

/-- Python's `s.startswith(pre)`. -/
def startsWithB (pre s : String) : Bool :=
  decide (pre.data <+: s.data)

/-- Python's `round(q, 2)`: round to two decimal places. -/
def round2 (q : ℚ) : ℚ := (round (q * 100) : ℚ) / 100

/-- A well-formed transcript segment: the dict `{"text": ..., "start": ...,
"end": ...}` of the data model.  `end` is a reserved word in Lean, so the
`"end"` key is called `stop`. -/
structure Segment where
  text : String
  start : ℚ
  stop : ℚ
deriving Repr, DecidableEq

/-- One element of the `matches` list built by the `/search` handler
(`src/main.py` lines 224-229). -/
structure SearchResult where
  found_at : ℚ
  clip_start : ℚ
  clip_end : ℚ
  text : String
deriving Repr, DecidableEq

/-- The loop body of `search_keyword` (`src/main.py` lines 219-229) on
well-formed segments: `keyword` is already lowercased, `results` is the
accumulator list being appended to. -/
def searchStep (kw : String) (window : ℤ) (results : List SearchResult)
    (seg : Segment) : List SearchResult :=
  if containsSub kw (strLower seg.text) then
    results ++ [{ found_at := round2 seg.start,
                  clip_start := round2 (max (seg.start - (window : ℚ)) 0),
                  clip_end := round2 (seg.stop + (window : ℚ)),
                  text := (strStrip seg.text) }]
  else results

/-- The matches list computed by the `/search` handler
(`src/main.py` lines 216-229) on well-formed segments:
lowercase the keyword, then run the loop with an empty accumulator. -/
def searchSegments (segments : List Segment) (keyword : String) (window : ℤ) :
    List SearchResult :=
  segments.foldl (searchStep (strLower keyword) window) []

/-- The match test of line 220: keyword contained case-insensitively in the
segment text. -/
def kwMatch (keyword : String) (seg : Segment) : Bool :=
  containsSub (strLower keyword) (strLower seg.text)

/-- The result record appended for a matching segment (lines 224-229). -/
def matchResult (window : ℤ) (seg : Segment) : SearchResult :=
  { found_at := round2 seg.start,
    clip_start := round2 (max (seg.start - (window : ℚ)) 0),
    clip_end := round2 (seg.stop + (window : ℚ)),
    text := (strStrip seg.text) }

lemma searchStep_eq (kw : String) (w : ℤ) (acc : List SearchResult)
    (seg : Segment) :
    searchStep kw w acc seg =
      if containsSub kw (strLower seg.text) then
        acc ++ [{ found_at := round2 seg.start,
                  clip_start := round2 (max (seg.start - (w : ℚ)) 0),
                  clip_end := round2 (seg.stop + (w : ℚ)),
                  text := (strStrip seg.text) }]
      else acc := rfl

/-- The accumulator-passing loop equals filter-then-map. -/
lemma searchLoop_eq_filterMap (kw : String) (w : ℤ) :
    ∀ (segs : List Segment) (acc : List SearchResult),
      segs.foldl (searchStep kw w) acc =
        acc ++ (segs.filter fun s => containsSub kw (strLower s.text)).map
          (matchResult w) := by
  intro segs
  induction segs with
  | nil => intro acc; simp
  | cons s rest ih =>
      intro acc
      by_cases h : containsSub kw (strLower s.text)
      · simp only [List.foldl_cons, List.filter_cons, h, if_pos, ih,
          searchStep, List.map_cons, matchResult]
        simp [h, List.append_assoc]
      · simp only [List.foldl_cons, List.filter_cons, ih, searchStep]
        simp [h]

/-- `searchSegments` is filter-then-map over the input segments. -/
lemma searchSegments_eq (segs : List Segment) (kw : String) (w : ℤ) :
    searchSegments segs kw w =
      (segs.filter fun s => kwMatch kw s).map (matchResult w) := by
  unfold searchSegments kwMatch
  rw [searchLoop_eq_filterMap]
  simp

lemma round_q_mono {a b : ℚ} (h : a ≤ b) : round a ≤ round b := by
  rw [round_eq, round_eq]
  exact Int.floor_mono (by linarith)

lemma round2_mono {a b : ℚ} (h : a ≤ b) : round2 a ≤ round2 b := by
  unfold round2
  have h1 : round (a * 100) ≤ round (b * 100) := round_q_mono (by linarith)
  have h2 : ((round (a * 100) : ℤ) : ℚ) ≤ ((round (b * 100) : ℤ) : ℚ) :=
    Int.cast_le.mpr h1
  linarith

lemma round2_zero : round2 0 = 0 := by
  norm_num [round2, round_eq]

lemma round2_nonneg {q : ℚ} (h : 0 ≤ q) : 0 ≤ round2 q := by
  have := round2_mono h
  rw [round2_zero] at this
  exact this

/-! ## Segments as Python dicts

The request model declares `segments: List[dict]`, so each segment is an
arbitrary dict; `seg["text"]`, `seg["start"]`, `seg["end"]` raise `KeyError`
when the key is missing.  We model a segment dict by three optional fields
and key access (`dictGet`) in the `Except` monad. -/

structure SegDict where
  text : Option String
  start : Option ℚ
  stop : Option ℚ
deriving Repr, DecidableEq

/-- Python dict subscripting `seg[key]`: raises `KeyError` if absent. -/
def dictGet (key : String) (v : Option α) : Except String α :=
  match v with
  | some x => Except.ok x
  | none => Except.error ("KeyError: " ++ key)

/-- The loop body of `search_keyword` on raw dicts, with the key accesses in
source order (`"text"` in the condition of line 220, then `"start"` and
`"end"` in lines 221-222). -/
def searchStepD (kw : String) (window : ℤ) (acc : List SearchResult)
    (seg : SegDict) : Except String (List SearchResult) := do
  let t ← dictGet "text" seg.text
  if containsSub kw (strLower t) then
    let s ← dictGet "start" seg.start
    let e ← dictGet "end" seg.stop
    return acc ++ [{ found_at := round2 s,
                     clip_start := round2 (max (s - (window : ℚ)) 0),
                     clip_end := round2 (e + (window : ℚ)),
                     text := strStrip t }]
  else
    return acc

/-- The matches list computed by the `/search` handler on raw dicts:
a `KeyError` aborts the request (FastAPI turns it into a server error). -/
def searchSegmentsD (segments : List SegDict) (keyword : String)
    (window : ℤ) : Except String (List SearchResult) :=
  segments.foldlM (searchStepD (strLower keyword) window) []

/-- `Except` success test. -/
def isOkE : Except ε α → Bool
  | Except.ok _ => true
  | Except.error _ => false

/-- A dict carrying all three keys. -/
def hasAllKeys (s : SegDict) : Prop :=
  s.text.isSome = true ∧ s.start.isSome = true ∧ s.stop.isSome = true

instance (s : SegDict) : Decidable (hasAllKeys s) := by
  unfold hasAllKeys; infer_instance

lemma searchStepD_total (kw : String) (w : ℤ) (acc : List SearchResult)
    (seg : SegDict) (h : hasAllKeys seg) :
    ∃ l, searchStepD kw w acc seg = Except.ok l := by
  obtain ⟨ht, hs, he⟩ := h
  obtain ⟨t, ht⟩ := Option.isSome_iff_exists.mp ht
  obtain ⟨s, hs⟩ := Option.isSome_iff_exists.mp hs
  obtain ⟨e, he⟩ := Option.isSome_iff_exists.mp he
  by_cases hc : containsSub kw (strLower t)
  · exact ⟨acc ++ [{ found_at := round2 s,
                     clip_start := round2 (max (s - (w : ℚ)) 0),
                     clip_end := round2 (e + (w : ℚ)),
                     text := strStrip t }],
      by simp only [searchStepD, ht, hs, he, dictGet, Bind.bind, Except.bind,
           if_pos hc, pure, Except.pure]⟩
  · exact ⟨acc,
      by simp only [searchStepD, ht, hs, he, dictGet, Bind.bind, Except.bind,
           if_neg hc, pure, Except.pure]⟩

lemma searchLoopD_total (kw : String) (w : ℤ) :
    ∀ (segs : List SegDict) (acc : List SearchResult),
      (∀ s ∈ segs, hasAllKeys s) →
      ∃ l, segs.foldlM (searchStepD kw w) acc = Except.ok l := by
  intro segs
  induction segs with
  | nil => intro acc _; exact ⟨acc, rfl⟩
  | cons s rest ih =>
      intro acc h
      obtain ⟨l₁, hl₁⟩ := searchStepD_total kw w acc s (h s (by simp))
      obtain ⟨l₂, hl₂⟩ := ih l₁ (fun x hx => h x (by simp [hx]))
      exact ⟨l₂, by simp only [List.foldlM, hl₁, Bind.bind, Except.bind, hl₂]⟩

/-! ## The filesystem model and the `/search` handler

The handlers are embedded as explicit state-passing functions on a
filesystem state: the contents (file names) of the four directories the app
creates at startup. -/

structure FS where
  videos : List String
  temp : List String
  clips : List String
  audio : List String
deriving Repr, DecidableEq

/-- The `/search` request model (`SearchRequest`, lines 119-122):
`segments: List[dict]`, `keyword: str`, `window: int = 7`. -/
structure SearchRequest where
  segments : List SegDict
  keyword : String
  window : ℤ
deriving Repr, DecidableEq

structure SearchResponse where
  keyword : String
  -- the JSON key "matches" (`matches` is reserved in Lean)
  matchList : List SearchResult
deriving Repr, DecidableEq

/-- The `/search` handler (`src/main.py` lines 214-234).  It performs no
filesystem or subprocess operation, so the state passes through unchanged;
a `KeyError` from a malformed segment dict aborts with an error. -/
def search_keyword (fs : FS) (data : SearchRequest) :
    FS × Except String SearchResponse :=
  (fs,
    do
      let results ← searchSegmentsD data.segments data.keyword data.window
      return { keyword := data.keyword, matchList := results })

/-- Shared concrete evaluation of the search on the spec's worked example:
segments `[{text: "Hello world", start: 10, end: 12}]`, keyword `"world"`,
window `5`. -/
lemma searchExampleEval :
    searchSegments [⟨"Hello world", 10, 12⟩] "world" 5 =
      [⟨10, 5, 17, "Hello world"⟩] := by
  simp only [searchSegments, List.foldl_cons, List.foldl_nil, searchStep,
    show containsSub (strLower "world") (strLower "Hello world") = true from
      by decide,
    if_pos]
  simp only [List.nil_append, List.cons.injEq, SearchResult.mk.injEq, and_true]
  refine ⟨?_, ?_, ?_, by decide⟩ <;> norm_num [round2, round_eq]

/-! ## Claims about the keyword search -/

/-- C1: the matches list is exactly filter-then-map over the input segment
list: every result element corresponds to a segment whose text contains the
keyword as a case-insensitive substring, every segment satisfying that
condition contributes exactly one element, and the original relative order
of the matching segments is preserved. -/
theorem search_matches_eq_filter_map (segs : List Segment) (kw : String)
    (w : ℤ) :
    searchSegments segs kw w =
      (segs.filter fun s => kwMatch kw s).map (matchResult w) :=
  searchSegments_eq segs kw w

/-- C2: every result element comes from a matching segment with
`found_at = round(start, 2)`, `clip_start = round(max(start − window, 0), 2)`,
`clip_end = round(end + window, 2)` (no upper clamp), and `text` the
segment text stripped of surrounding whitespace; conversely every matching
segment contributes such an element. -/
theorem search_result_fields (segs : List Segment) (kw : String) (w : ℤ) :
    (∀ r ∈ searchSegments segs kw w, ∃ seg ∈ segs,
      kwMatch kw seg = true ∧
      r.found_at = round2 seg.start ∧
      r.clip_start = round2 (max (seg.start - (w : ℚ)) 0) ∧
      r.clip_end = round2 (seg.stop + (w : ℚ)) ∧
      r.text = strStrip seg.text) ∧
    (∀ seg ∈ segs, kwMatch kw seg = true →
      ∃ r ∈ searchSegments segs kw w,
        r.found_at = round2 seg.start ∧
        r.clip_start = round2 (max (seg.start - (w : ℚ)) 0) ∧
        r.clip_end = round2 (seg.stop + (w : ℚ)) ∧
        r.text = strStrip seg.text) := by
  constructor
  · intro r hr
    rw [searchSegments_eq] at hr
    rcases List.mem_map.mp hr with ⟨seg, hseg, rfl⟩
    rcases List.mem_filter.mp hseg with ⟨hmem, hmatch⟩
    exact ⟨seg, hmem, hmatch, rfl, rfl, rfl, rfl⟩
  · intro seg hmem hmatch
    refine ⟨matchResult w seg, ?_, rfl, rfl, rfl, rfl⟩
    rw [searchSegments_eq]
    exact List.mem_map_of_mem _ (List.mem_filter.mpr ⟨hmem, hmatch⟩)

theorem search_result_fields_witness :
    ∃ seg ∈ [(⟨"Hello world", 10, 12⟩ : Segment)],
      kwMatch "world" seg = true ∧
      (10 : ℚ) = round2 seg.start ∧
      (5 : ℚ) = round2 (max (seg.start - ((5 : ℤ) : ℚ)) 0) ∧
      (17 : ℚ) = round2 (seg.stop + ((5 : ℤ) : ℚ)) ∧
      "Hello world" = strStrip seg.text := by
  have h := (search_result_fields [⟨"Hello world", 10, 12⟩] "world" 5).1
    ⟨10, 5, 17, "Hello world"⟩ (by rw [searchExampleEval]; simp)
  exact h

/-- C3 fails as stated: the window is a caller-supplied integer with no sign
restriction, and a negative window makes `clip_end` smaller than
`clip_start`.  Segment `{text: "Hello world", start: 10, end: 10}` (so
`start ≥ 0` and `end ≥ start`), keyword `"world"`, window `-6`: the single
result has `clip_start = 16` and `clip_end = 4 < 16`. -/
theorem clip_order_neg_window_cex :
    searchSegments [⟨"Hello world", 10, 10⟩] "world" (-6) =
      [⟨10, 16, 4, "Hello world"⟩] ∧ (4 : ℚ) < 16 := by
  constructor
  · simp only [searchSegments, List.foldl_cons, List.foldl_nil, searchStep,
      show containsSub (strLower "world") (strLower "Hello world") = true from
        by decide,
      if_pos]
    simp only [List.nil_append, List.cons.injEq, SearchResult.mk.injEq,
      and_true]
    refine ⟨?_, ?_, ?_, by decide⟩ <;> norm_num [round2, round_eq]
  · norm_num

/-- C3 amended: for segments with `0 ≤ start ≤ end`, `clip_start` is never
negative for any integer window, and `clip_end ≥ clip_start` whenever the
window is nonnegative. -/
theorem clip_bounds (segs : List Segment) (kw : String) (w : ℤ)
    (hsegs : ∀ s ∈ segs, 0 ≤ s.start ∧ s.start ≤ s.stop) :
    (∀ r ∈ searchSegments segs kw w, 0 ≤ r.clip_start) ∧
    (0 ≤ w → ∀ r ∈ searchSegments segs kw w, r.clip_start ≤ r.clip_end) := by
  constructor
  · intro r hr
    rw [searchSegments_eq] at hr
    rcases List.mem_map.mp hr with ⟨seg, _, rfl⟩
    exact round2_nonneg (le_max_right _ _)
  · intro hw r hr
    rw [searchSegments_eq] at hr
    rcases List.mem_map.mp hr with ⟨seg, hseg, rfl⟩
    rcases List.mem_filter.mp hseg with ⟨hmem, _⟩
    obtain ⟨h0, h1⟩ := hsegs seg hmem
    have hwq : (0 : ℚ) ≤ (w : ℚ) := by exact_mod_cast hw
    apply round2_mono
    rcases max_cases (seg.start - (w : ℚ)) 0 with ⟨heq, _⟩ | ⟨heq, _⟩ <;>
      rw [heq] <;> linarith

theorem clip_bounds_witness :
    (0 : ℚ) ≤ (5 : ℚ) ∧ (5 : ℚ) ≤ 17 := by
  have h := clip_bounds [⟨"Hello world", 10, 12⟩] "world" 5
    (by intro s hs; rw [List.mem_singleton] at hs; subst hs; norm_num)
  have hmem : (⟨10, 5, 17, "Hello world"⟩ : SearchResult) ∈
      searchSegments [⟨"Hello world", 10, 12⟩] "world" 5 := by
    rw [searchExampleEval]; simp
  have h1 := h.1 ⟨10, 5, 17, "Hello world"⟩ hmem
  have h2 := h.2 (by norm_num) ⟨10, 5, 17, "Hello world"⟩ hmem
  exact ⟨h1, h2⟩

/-- C4: the empty keyword matches every segment (the matches list maps over
all segments), and a keyword matching no segment text yields the empty
matches list as a normal result, not an error. -/
theorem empty_keyword_and_no_match (segs : List Segment) (kw : String)
    (w : ℤ) :
    searchSegments segs "" w = segs.map (matchResult w) ∧
    ((∀ s ∈ segs, kwMatch kw s = false) → searchSegments segs kw w = []) := by
  constructor
  · rw [searchSegments_eq]
    have hall : ∀ s ∈ segs, kwMatch "" s = true := by
      intro s _
      unfold kwMatch containsSub
      rw [show strLower "" = "" from rfl]
      simp
    rw [List.filter_eq_self.mpr hall]
  · intro h
    rw [searchSegments_eq, List.filter_eq_nil_iff.mpr (by simpa using h)]
    simp

theorem empty_keyword_and_no_match_witness :
    searchSegments [⟨"Hello", 1, 2⟩] "xyz" 7 = [] :=
  (empty_keyword_and_no_match [⟨"Hello", 1, 2⟩] "xyz" 7).2 (by decide)

/-- C5: the `/search` handler is deterministic and side-effect-free: the
filesystem state passes through unchanged and does not influence the
response, and two invocations with identical request data produce identical
responses. -/
theorem search_keyword_pure (fs fs2 : FS) (d d2 : SearchRequest)
    (h : d = d2) :
    (search_keyword fs d).1 = fs ∧
    (search_keyword fs d).2 = (search_keyword fs2 d2).2 := by
  subst h; exact ⟨rfl, rfl⟩

theorem search_keyword_pure_witness :
    (search_keyword ⟨["v.mp4"], [], [], []⟩ ⟨[], "a", 7⟩).1 =
      ⟨["v.mp4"], [], [], []⟩ ∧
    (search_keyword ⟨["v.mp4"], [], [], []⟩ ⟨[], "a", 7⟩).2 =
      (search_keyword ⟨[], [], [], []⟩ ⟨[], "a", 7⟩).2 :=
  search_keyword_pure ⟨["v.mp4"], [], [], []⟩ ⟨[], [], [], []⟩
    ⟨[], "a", 7⟩ ⟨[], "a", 7⟩ rfl

/-- C9: the search succeeds on every segment list whose dicts carry all
three keys "text", "start", "end"; and there is an input dict with a
missing key on which it fails with a KeyError instead of producing a
result. -/
theorem search_total_with_keys (segs : List SegDict) (kw : String) (w : ℤ)
    (h : ∀ s ∈ segs, hasAllKeys s) :
    isOkE (searchSegmentsD segs kw w) = true ∧
    isOkE (searchSegmentsD [⟨none, some 0, some 0⟩] "a" 7) = false := by
  refine ⟨?_, rfl⟩
  obtain ⟨l, hl⟩ := searchLoopD_total (strLower kw) w segs [] h
  simp [searchSegmentsD, hl, isOkE]

theorem search_total_with_keys_witness :
    isOkE (searchSegmentsD [⟨some "Hi there", some 1, some 2⟩] "hi" 7)
        = true ∧
    isOkE (searchSegmentsD [⟨none, some 0, some 0⟩] "a" 7) = false :=
  search_total_with_keys [⟨some "Hi there", some 1, some 2⟩] "hi" 7
    (by intro s hs; rw [List.mem_singleton] at hs; subst hs
        exact ⟨rfl, rfl, rfl⟩)

/-! ## The `/upload` handler

`upload_video` (`src/main.py` lines 134-157) writes the uploaded bytes to
`videos/{video_id}{ext}`, runs `extract_audio` (ffmpeg) into
`temp/{video_id}.wav`, runs the (stubbed) transcription and returns
`{video_id, segments}`.  Its `except` block (lines 153-157) checks whether
the video file exists and calls `os.remove` on it — with no inner
`try/except` — then re-raises.  The environment records the outcome of each
effectful step. -/

/-- `transcribe_audio` (lines 57-59): disabled, always returns no
segments. -/
def transcribe_audio : List Segment := []

inductive WriteOutcome
  -- the open+write of lines 143-144 succeeded
  | ok
  -- `open` itself failed: no file was created
  | failNoFile (e : String)
  -- the write failed after the file was created
  | failFileLeft (e : String)
deriving Repr, DecidableEq

structure UploadEnv where
  write : WriteOutcome
  -- outcome of `extract_audio` (ffmpeg): `none` = success
  extractErr : Option String
  -- outcome of `os.remove(video_path)` if the except block reaches it
  removeErr : Option String
deriving Repr, DecidableEq

structure UploadResponse where
  video_id : String
  segments : List Segment
deriving Repr, DecidableEq

/-- The except block of `upload_video` (lines 153-157): if the video file
exists, `os.remove` it (unguarded — its own failure propagates instead of
the original exception `e`), otherwise re-raise `e`. -/
def uploadCleanup (env : UploadEnv) (fs : FS) (video_name e : String) :
    FS × Except String UploadResponse :=
  if video_name ∈ fs.videos then
    match env.removeErr with
    | none =>
        ({ fs with videos := fs.videos.erase video_name }, Except.error e)
    | some e2 => (fs, Except.error e2)
  else (fs, Except.error e)

/-- The `/upload` handler (lines 134-157). -/
def upload_video (env : UploadEnv) (fs : FS) (video_id ext : String) :
    FS × Except String UploadResponse :=
  let video_name := video_id ++ ext
  match env.write with
  | WriteOutcome.failNoFile e => uploadCleanup env fs video_name e
  | WriteOutcome.failFileLeft e =>
      uploadCleanup env { fs with videos := fs.videos ++ [video_name] }
        video_name e
  | WriteOutcome.ok =>
      let fs1 : FS := { fs with videos := fs.videos ++ [video_name] }
      match env.extractErr with
      | some e => uploadCleanup env fs1 video_name e
      | none =>
          ({ fs1 with temp := fs1.temp ++ [video_id ++ ".wav"] },
            Except.ok { video_id := video_id, segments := transcribe_audio })

/-- The exception raised by the failing step of the try block, if any. -/
def stepError (env : UploadEnv) : Option String :=
  match env.write with
  | WriteOutcome.failNoFile e => some e
  | WriteOutcome.failFileLeft e => some e
  | WriteOutcome.ok => env.extractErr

/-- C6 fails as stated: the `os.remove` in the except block of
`upload_video` is not wrapped in an inner `try/except`, so a deletion error
is **not** swallowed.  Concretely: the write succeeds, `extract_audio`
fails with "ffmpeg error", and `os.remove` fails with "PermissionError";
the handler then propagates "PermissionError" — masking the original
failure — and the partial video file `vid.mp4` is still present. -/
theorem upload_remove_error_masks_cex :
    upload_video ⟨WriteOutcome.ok, some "ffmpeg error", some "PermissionError"⟩
        ⟨[], [], [], []⟩ "vid" ".mp4" =
      (⟨["vid.mp4"], [], [], []⟩, Except.error "PermissionError") := rfl

/-- C6 amended: on any failure during write/extract, the handler attempts
to delete the partial video file before propagating.  When the deletion
does not itself fail (or no file was created), the original exception
propagates and no video file remains; but the deletion is unguarded, so a
deletion error propagates in place of the original failure instead of
being swallowed. -/
theorem upload_cleanup_behavior (env : UploadEnv) (fs : FS)
    (video_id ext e : String)
    (hfresh : (video_id ++ ext) ∉ fs.videos)
    (hstep : stepError env = some e) :
    (env.removeErr = none →
      upload_video env fs video_id ext = (fs, Except.error e)) ∧
    (∀ e2, env.removeErr = some e2 →
      (∀ e3, env.write ≠ WriteOutcome.failNoFile e3) →
      (upload_video env fs video_id ext).2 = Except.error e2 ∧
        (video_id ++ ext) ∈ (upload_video env fs video_id ext).1.videos) := by
  have herase : (fs.videos ++ [video_id ++ ext]).erase (video_id ++ ext) =
      fs.videos := by
    rw [List.erase_append_right _ hfresh, List.erase_cons_head,
      List.append_nil]
  have hmem : (video_id ++ ext) ∈ fs.videos ++ [video_id ++ ext] := by
    simp
  obtain ⟨write, extractErr, removeErr⟩ := env
  cases write with
  | failNoFile e3 =>
      simp only [stepError, Option.some.injEq] at hstep
      subst hstep
      refine ⟨fun hrm => ?_, fun e2 hrm hnofail => absurd rfl (hnofail e3)⟩
      simp [upload_video, uploadCleanup, hfresh]
  | failFileLeft e3 =>
      simp only [stepError, Option.some.injEq] at hstep
      subst hstep
      constructor
      · intro hrm
        simp only at hrm
        subst hrm
        simp [upload_video, uploadCleanup, hmem, herase]
      · intro e2 hrm hnofail
        simp only at hrm
        subst hrm
        constructor <;> simp [upload_video, uploadCleanup, hmem]
  | ok =>
      simp only [stepError] at hstep
      subst hstep
      constructor
      · intro hrm
        simp only at hrm
        subst hrm
        simp [upload_video, uploadCleanup, hmem, herase]
      · intro e2 hrm hnofail
        simp only at hrm
        subst hrm
        constructor <;> simp [upload_video, uploadCleanup, hmem]

theorem upload_cleanup_behavior_witness :
    upload_video ⟨WriteOutcome.ok, some "boom", none⟩ ⟨[], [], [], []⟩
        "vid" ".mp4" = (⟨[], [], [], []⟩, Except.error "boom") :=
  (upload_cleanup_behavior ⟨WriteOutcome.ok, some "boom", none⟩
    ⟨[], [], [], []⟩ "vid" ".mp4" "boom" (by decide) rfl).1 rfl

/-! ## The `/youtube` handler

`youtube` (`src/main.py` lines 159-212) downloads the video with yt-dlp
(one retry without the format constraint), locates the produced file by
scanning `videos/` for a name starting with `video_id`, extracts audio and
transcribes.  The except block removes every file starting with `video_id`
(each `os.remove` guarded by `try/except: pass`) and classifies the
exception by substring matching on `str(e)`.

Directory paths are modelled relative (`videos/...`) rather than under the
absolute `BASE_DIR` of the source; `str(subprocess.CalledProcessError)` is
`Command ... returned non-zero exit status N.` with the command list
rendered element by element — we render the elements in order separated by
", " (dropping Python's quoting) and fix the exit status at 1, which
preserves exactly the substring content the classifier looks at. -/

def VIDEO_DIR : String := "videos"
def TEMP_DIR : String := "temp"
def CLIPS_DIR : String := "clips"
def AUDIO_DIR : String := "audio"

/-- `os.path.join`. -/
def pathJoin (d f : String) : String := d ++ "/" ++ f

/-- Render a command list, elements in order. -/
def renderCmd : List String → String
  | [] => ""
  | [x] => x
  | x :: y :: ys => x ++ ", " ++ renderCmd (y :: ys)

/-- Exceptions raised inside the `/youtube` try block. -/
inductive PyErr
  | calledProcessError (cmd : List String)
  | fileNotFound (msg : String)
deriving Repr, DecidableEq

/-- Python's `str(e)` for the two exception kinds. -/
def strOfErr : PyErr → String
  | PyErr.calledProcessError cmd =>
      "Command [" ++ renderCmd cmd ++ "] returned non-zero exit status 1."
  | PyErr.fileNotFound msg => msg

/-- The first yt-dlp invocation (line 170). -/
def ytDlpCmd1 (tmpl url : String) : List String :=
  ["python", "-m", "yt_dlp", "-f", "best[ext=mp4]/best", "-o", tmpl, url]

/-- The fallback yt-dlp invocation (line 178). -/
def ytDlpCmd2 (tmpl url : String) : List String :=
  ["python", "-m", "yt_dlp", "-o", tmpl, url]

/-- The `extract_audio` ffmpeg invocation (lines 38-51). -/
def ffmpegExtractCmd (video_path audio_path : String) : List String :=
  ["ffmpeg", "-y", "-i", video_path, "-ac", "1", "-ar", "16000", audio_path]

structure YtEnv where
  -- first yt-dlp invocation exits zero
  run1Ok : Bool
  -- fallback yt-dlp invocation exits zero (consulted only if the first fails)
  run2Ok : Bool
  -- names added under `videos/` by the download attempts
  downloaded : List String
  -- `extract_audio` succeeds
  extractOk : Bool
  -- whether `os.remove` succeeds on a given name during cleanup
  -- (its failure is swallowed by the inner `try/except: pass`)
  removeOk : String → Bool

structure HTTPExc where
  status : ℕ
  detail : String
deriving Repr, DecidableEq

/-- The tail of the `/youtube` try block (lines 184-197), after the download
attempts succeeded: locate the downloaded file among the names starting
with `video_id`, raise `FileNotFoundError("Video download failed")` if
there is none, otherwise extract audio and transcribe. -/
def ytAfterDownload (extractOk : Bool) (fs1 : FS) (video_id : String) :
    List String → FS × Except PyErr UploadResponse
  | [] => (fs1, Except.error (PyErr.fileNotFound "Video download failed"))
  | vf :: _ =>
      if extractOk then
        ({ fs1 with temp := fs1.temp ++ [video_id ++ ".wav"] },
          Except.ok { video_id := video_id, segments := transcribe_audio })
      else
        (fs1, Except.error (PyErr.calledProcessError
          (ffmpegExtractCmd (pathJoin VIDEO_DIR vf)
            (pathJoin TEMP_DIR (video_id ++ ".wav")))))

/-- The except block of `/youtube` (lines 198-212): best-effort removal of
every file starting with `video_id` (each `os.remove` guarded by
`try/except: pass`), then classification of `str(e)` by substring
matching. -/
def ytExceptBlock (removeOk : String → Bool) (video_id : String) (fs2 : FS)
    (e : PyErr) : FS × Except HTTPExc UploadResponse :=
  let keptVideos := fs2.videos.filter
    (fun f => !(startsWithB video_id f) || !(removeOk f))
  let fs3 : FS := { fs2 with videos := keptVideos }
  let error_msg := strOfErr e
  if containsSub "Video download failed" error_msg then
    (fs3, Except.error ⟨400,
      "Failed to download video. Please check the URL and try again."⟩)
  else if containsSub "yt_dlp" error_msg ||
      containsSub "yt-dlp" error_msg then
    (fs3, Except.error ⟨500,
      "YouTube downloader error. Please ensure yt-dlp is installed: pip install yt-dlp"⟩)
  else
    (fs3, Except.error ⟨500,
      "Error processing YouTube video: " ++ error_msg⟩)

/-- Return a successful try block's result unchanged; route an exception
through the except block. -/
def ytWrap (removeOk : String → Bool) (video_id : String) :
    FS × Except PyErr UploadResponse → FS × Except HTTPExc UploadResponse
  | (fs2, Except.ok r) => (fs2, Except.ok r)
  | (fs2, Except.error e) => ytExceptBlock removeOk video_id fs2 e

/-- The `/youtube` handler (lines 159-212). -/
def youtube (env : YtEnv) (fs : FS) (url video_id : String) :
    FS × Except HTTPExc UploadResponse :=
  let tmplPath := pathJoin VIDEO_DIR (video_id ++ ".%(ext)s")
  -- the download attempts put their files in `videos/` in either case
  let fs1 : FS := { fs with videos := fs.videos ++ env.downloaded }
  -- the try block of lines 166-197
  let attempt : FS × Except PyErr UploadResponse :=
    if env.run1Ok = false ∧ env.run2Ok = false then
      -- the retry also failed: its CalledProcessError escapes the inner try
      (fs1, Except.error (PyErr.calledProcessError (ytDlpCmd2 tmplPath url)))
    else
      ytAfterDownload env.extractOk fs1 video_id
        (fs1.videos.filter (fun f => startsWithB video_id f))
  ytWrap env.removeOk video_id attempt

/-- The actual cause of a failing `/youtube` request in the model. -/
inductive YtFailCause
  -- both yt-dlp invocations exited non-zero
  | downloaderFailure
  -- the tool ran but produced no file named with the id prefix
  | downloadNoFile
  -- ffmpeg audio extraction failed
  | extractFailure
deriving Repr, DecidableEq

/-- Which step of the `/youtube` try block fails, if any. -/
def ytCause (env : YtEnv) (fs : FS) (video_id : String) :
    Option YtFailCause :=
  if env.run1Ok = false ∧ env.run2Ok = false then
    some YtFailCause.downloaderFailure
  else if (fs.videos ++ env.downloaded).filter
      (fun f => startsWithB video_id f) = [] then
    some YtFailCause.downloadNoFile
  else if env.extractOk = false then
    some YtFailCause.extractFailure
  else none

/-- The structured 400 response of line 208. -/
def ytMsgNotFound : HTTPExc :=
  ⟨400, "Failed to download video. Please check the URL and try again."⟩

/-- The structured 500 response of line 210. -/
def ytMsgDownloader : HTTPExc :=
  ⟨500, "YouTube downloader error. Please ensure yt-dlp is installed: pip install yt-dlp"⟩

lemma generic_ne_downloader (m : String) :
    ("Error processing YouTube video: " ++ m) ≠
      "YouTube downloader error. Please ensure yt-dlp is installed: pip install yt-dlp" := by
  intro h
  have hd : ("Error processing YouTube video: " ++ m).data.head? = some 'E' := by
    rw [String.data_append]; rfl
  rw [h] at hd
  exact absurd hd (by decide)

lemma containsSub_of_middle (a n c : String) :
    containsSub n (a ++ n ++ c) = true := by
  simp only [containsSub, decide_eq_true_eq]
  exact ⟨a.data, c.data, by simp [String.data_append]⟩

lemma containsSub_self (n : String) : containsSub n n = true := by
  simp only [containsSub, decide_eq_true_eq]
  exact ⟨[], [], by simp⟩

lemma yt_dlp_in_cmd2 (tmpl url : String) :
    containsSub "yt_dlp"
      (strOfErr (PyErr.calledProcessError (ytDlpCmd2 tmpl url))) = true := by
  have : strOfErr (PyErr.calledProcessError (ytDlpCmd2 tmpl url)) =
      ("Command [" ++ "python" ++ ", " ++ "-m" ++ ", ") ++ "yt_dlp" ++
        (", " ++ "-o" ++ ", " ++ tmpl ++ ", " ++ url ++
          "] returned non-zero exit status 1.") := by
    simp only [strOfErr, ytDlpCmd2, renderCmd]
    apply String.ext
    simp [String.data_append]
  rw [this]
  exact containsSub_of_middle _ _ _

/-- C7 fails as stated: the handler classifies by substring matching on
`str(e)`, and the rendered `CalledProcessError` text includes the submitted
URL.  With URL `"Video download failed"` and both yt-dlp invocations
failing, the actual cause is a downloader-tool failure, but the sentinel
`"Video download failed"` occurs in the message, so the handler reports the
400 "download produced no file" error instead of the 500 downloader
error. -/
theorem youtube_misclassification_cex :
    ytCause ⟨false, false, [], true, fun _ => true⟩ ⟨[], [], [], []⟩ "vid" =
      some YtFailCause.downloaderFailure ∧
    (youtube ⟨false, false, [], true, fun _ => true⟩ ⟨[], [], [], []⟩
        "Video download failed" "vid").2 =
      Except.error ytMsgNotFound := by
  exact ⟨rfl, rfl⟩

/-- C7 amended: the `/youtube` handler classifies a failure by substring
matching on the exception text: it reports the 400 "download failed" error,
the 500 downloader error, or the generic 500 processing error matching the
actual failing step — provided the rendered command text (the submitted URL
and the located file name) does not itself contain one of the sentinel
substrings "Video download failed", "yt_dlp", "yt-dlp".  The structured
errors are distinct. -/
theorem youtube_error_classification (env : YtEnv) (fs : FS)
    (url video_id : String)
    (h1 : containsSub "Video download failed"
      (strOfErr (PyErr.calledProcessError
        (ytDlpCmd2 (pathJoin VIDEO_DIR (video_id ++ ".%(ext)s")) url)))
        = false)
    (h2 : ∀ vf ∈ fs.videos ++ env.downloaded,
      containsSub "Video download failed"
        (strOfErr (PyErr.calledProcessError
          (ffmpegExtractCmd (pathJoin VIDEO_DIR vf)
            (pathJoin TEMP_DIR (video_id ++ ".wav"))))) = false)
    (h3 : ∀ vf ∈ fs.videos ++ env.downloaded,
      containsSub "yt_dlp"
        (strOfErr (PyErr.calledProcessError
          (ffmpegExtractCmd (pathJoin VIDEO_DIR vf)
            (pathJoin TEMP_DIR (video_id ++ ".wav"))))) = false)
    (h4 : ∀ vf ∈ fs.videos ++ env.downloaded,
      containsSub "yt-dlp"
        (strOfErr (PyErr.calledProcessError
          (ffmpegExtractCmd (pathJoin VIDEO_DIR vf)
            (pathJoin TEMP_DIR (video_id ++ ".wav"))))) = false) :
    (ytCause env fs video_id = some YtFailCause.downloaderFailure →
      (youtube env fs url video_id).2 = Except.error ytMsgDownloader) ∧
    (ytCause env fs video_id = some YtFailCause.downloadNoFile →
      (youtube env fs url video_id).2 = Except.error ytMsgNotFound) ∧
    (ytCause env fs video_id = some YtFailCause.extractFailure →
      ∃ m, (youtube env fs url video_id).2 =
          Except.error ⟨500, "Error processing YouTube video: " ++ m⟩ ∧
        (⟨500, "Error processing YouTube video: " ++ m⟩ : HTTPExc)
          ≠ ytMsgDownloader) ∧
    ytMsgNotFound ≠ ytMsgDownloader := by
  obtain ⟨r1, r2, dl, ex, rm⟩ := env
  by_cases hrun : r1 = false ∧ r2 = false
  · refine ⟨fun _ => ?_, fun hc => ?_, fun hc => ?_, by decide⟩
    · simp only [youtube]
      rw [if_pos hrun]
      simp only [ytWrap, ytExceptBlock]
      rw [if_neg (by simp [h1])]
      rw [if_pos (by simp [yt_dlp_in_cmd2])]
      rfl
    · simp [ytCause, hrun] at hc
    · simp [ytCause, hrun] at hc
  · by_cases hL : (fs.videos ++ dl).filter (fun f => startsWithB video_id f)
        = []
    · refine ⟨fun hc => ?_, fun _ => ?_, fun hc => ?_, by decide⟩
      · simp [ytCause, hrun, hL] at hc
      · simp only [youtube]
        rw [if_neg hrun]
        rw [hL]
        simp only [ytAfterDownload, ytWrap, ytExceptBlock]
        rw [if_pos (by
          simp only [strOfErr]
          simp [containsSub_self])]
        rfl
      · simp [ytCause, hrun, hL] at hc
    · obtain ⟨vf, rest, hL2⟩ : ∃ vf rest,
          (fs.videos ++ dl).filter (fun f => startsWithB video_id f) =
            vf :: rest := by
        cases h : (fs.videos ++ dl).filter (fun f => startsWithB video_id f)
          with
        | nil => exact absurd h hL
        | cons a b => exact ⟨a, b, rfl⟩
      have hvf_mem : vf ∈ fs.videos ++ dl :=
        List.mem_of_mem_filter (hL2 ▸ List.mem_cons_self vf rest)
      cases ex with
      | true =>
          refine ⟨fun hc => ?_, fun hc => ?_, fun hc => ?_, by decide⟩ <;>
            (simp only [ytCause] at hc
             rw [if_neg hrun, if_neg hL] at hc
             simp at hc)
      | false =>
          refine ⟨fun hc => ?_, fun hc => ?_, fun _ => ?_, by decide⟩
          · simp only [ytCause] at hc
            rw [if_neg hrun, if_neg hL] at hc
            simp at hc
          · simp only [ytCause] at hc
            rw [if_neg hrun, if_neg hL] at hc
            simp at hc
          · refine ⟨strOfErr (PyErr.calledProcessError
              (ffmpegExtractCmd (pathJoin VIDEO_DIR vf)
                (pathJoin TEMP_DIR (video_id ++ ".wav")))), ?_,
              fun hcontra =>
                generic_ne_downloader _ (congrArg HTTPExc.detail hcontra)⟩
            simp only [youtube]
            rw [if_neg hrun]
            rw [hL2]
            simp only [ytAfterDownload, ytWrap, ytExceptBlock,
              Bool.false_eq_true, if_false]
            rw [if_neg (by simp [h2 vf hvf_mem])]
            rw [if_neg (by simp [h3 vf hvf_mem, h4 vf hvf_mem])]

set_option maxRecDepth 4000 in
theorem youtube_error_classification_witness :
    (youtube ⟨false, false, [], true, fun _ => true⟩ ⟨[], [], [], []⟩
        "http://example.com/watch" "vid").2 =
      Except.error ytMsgDownloader :=
  (youtube_error_classification ⟨false, false, [], true, fun _ => true⟩
    ⟨[], [], [], []⟩ "http://example.com/watch" "vid"
    (by decide) (by simp) (by simp) (by simp)).1 rfl

/-! ## The `/generate-clip` handler

`generate_clip` (`src/main.py` lines 241-275) locates the source video by
prefix match (returning the structured body `{"error": "Video file not
found"}` as a normal 200 response when there is none), runs
`create_video_clip` (stream-copy ffmpeg attempt, then a re-encode fallback)
into `clips/{clip_id}.mp4`, then — if `temp/{video_id}.wav` exists — runs
`create_audio_clip` into `audio/{clip_id}.wav`, and answers with the clip
paths.  Its except block removes the video clip file if present (`os.remove`
guarded by `try/except: pass`) and re-raises; it never touches the audio
clip file.  The trace component records which external ffmpeg invocations
were made. -/

inductive ExtCall
  -- the stream-copy video clip attempt (lines 67-80)
  | ffmpegCopy
  -- the re-encode fallback (lines 83-97)
  | ffmpegReencode
  -- the audio clip extraction (lines 102-116)
  | ffmpegAudio
deriving Repr, DecidableEq

/-- The `/generate-clip` request model (lines 236-239). -/
structure ClipRequest where
  video_id : String
  start_time : ℚ
  end_time : ℚ
deriving Repr, DecidableEq

inductive ClipResponse
  -- the success body of lines 263-267
  | ok (clip_id : String) (video_clip : String) (audio_clip : Option String)
  -- the body {"error": "Video file not found"} of line 247, HTTP 200
  | videoNotFound
deriving Repr, DecidableEq

structure ClipEnv where
  -- the stream-copy ffmpeg attempt exits zero
  copyOk : Bool
  -- the re-encode fallback exits zero (consulted only if the copy fails)
  reencodeOk : Bool
  -- a failed re-encode leaves a partial output file behind
  reencodePartial : Bool
  -- the audio clip ffmpeg invocation exits zero
  audioOk : Bool
  -- a failed audio invocation leaves a partial output file behind
  audioPartial : Bool
  -- `os.remove` in the except block succeeds
  -- (its failure is swallowed by the inner `try/except: pass`)
  cleanupRemoveOk : Bool
deriving Repr, DecidableEq

/-- HTTP status of a `/generate-clip` outcome: a normal return is a 200
JSON body, an uncaught exception becomes a server error. -/
def clipStatus : Except String ClipResponse → ℕ
  | Except.ok _ => 200
  | Except.error _ => 500

/-- The except block of `generate_clip` (lines 268-275): if the video clip
file exists, remove it best-effort (`try/except: pass`), then re-raise the
original exception.  The audio clip file is never touched. -/
def clipExceptBlock (removeOk : Bool) (fs : FS) (clip_video e : String) :
    FS × Except String ClipResponse :=
  if clip_video ∈ fs.clips then
    if removeOk then
      ({ fs with clips := fs.clips.erase clip_video }, Except.error e)
    else (fs, Except.error e)
  else (fs, Except.error e)

/-- Lines 260-267: after the video clip was created, produce the audio clip
when the extracted source audio exists, then build the success body
(line 266 re-checks `os.path.exists(clip_audio_path)`). -/
def clipAfterVideo (env : ClipEnv) (fs : FS) (trace : List ExtCall)
    (audio_name clip_id clip_video clip_audio : String) :
    FS × List ExtCall × Except String ClipResponse :=
  if audio_name ∈ fs.temp then
    if env.audioOk then
      let fs3 : FS := { fs with audio := fs.audio ++ [clip_audio] }
      (fs3, trace ++ [ExtCall.ffmpegAudio],
        Except.ok (ClipResponse.ok clip_id ("/clips/" ++ clip_id ++ ".mp4")
          (if clip_audio ∈ fs3.audio then
            some ("/audio/" ++ clip_id ++ ".wav")
          else none)))
    else
      let fsa : FS := { fs with audio :=
        fs.audio ++ (if env.audioPartial then [clip_audio] else []) }
      let cleaned := clipExceptBlock env.cleanupRemoveOk fsa clip_video
        "CalledProcessError: ffmpeg audio clip"
      (cleaned.1, trace ++ [ExtCall.ffmpegAudio], cleaned.2)
  else
    (fs, trace,
      Except.ok (ClipResponse.ok clip_id ("/clips/" ++ clip_id ++ ".mp4")
        (if clip_audio ∈ fs.audio then
          some ("/audio/" ++ clip_id ++ ".wav")
        else none)))

/-- The body of `generate_clip` once the prefix lookup result is known. -/
def clipDispatch (env : ClipEnv) (fs : FS) (data : ClipRequest)
    (clip_id : String) :
    List String → FS × List ExtCall × Except String ClipResponse
  | [] => (fs, [], Except.ok ClipResponse.videoNotFound)
  | _ :: _ =>
      let audio_name := data.video_id ++ ".wav"
      let clip_video := clip_id ++ ".mp4"
      let clip_audio := clip_id ++ ".wav"
      -- create_video_clip (lines 62-97): stream copy, then re-encode
      if env.copyOk then
        clipAfterVideo env { fs with clips := fs.clips ++ [clip_video] }
          [ExtCall.ffmpegCopy] audio_name clip_id clip_video clip_audio
      else if env.reencodeOk then
        clipAfterVideo env { fs with clips := fs.clips ++ [clip_video] }
          [ExtCall.ffmpegCopy, ExtCall.ffmpegReencode]
          audio_name clip_id clip_video clip_audio
      else
        let fsv : FS := { fs with clips :=
          fs.clips ++ (if env.reencodePartial then [clip_video] else []) }
        let cleaned := clipExceptBlock env.cleanupRemoveOk fsv clip_video
          "CalledProcessError: ffmpeg video clip"
        (cleaned.1, [ExtCall.ffmpegCopy, ExtCall.ffmpegReencode], cleaned.2)

/-- The `/generate-clip` handler (lines 241-275). -/
def generate_clip (env : ClipEnv) (fs : FS) (data : ClipRequest)
    (clip_id : String) :
    FS × List ExtCall × Except String ClipResponse :=
  clipDispatch env fs data clip_id
    (fs.videos.filter (fun f => startsWithB data.video_id f))

/-- C8: when no file in the videos directory starts with the requested
video_id, the handler returns the structured body
`{"error": "Video file not found"}` as a normal HTTP 200 response, leaves
the filesystem unchanged, and invokes no external tool. -/
theorem generate_clip_not_found (env : ClipEnv) (fs : FS)
    (data : ClipRequest) (clip_id : String)
    (h : fs.videos.filter (fun f => startsWithB data.video_id f) = []) :
    generate_clip env fs data clip_id =
      (fs, [], Except.ok ClipResponse.videoNotFound) ∧
    clipStatus (generate_clip env fs data clip_id).2.2 = 200 := by
  have hg : generate_clip env fs data clip_id =
      (fs, [], Except.ok ClipResponse.videoNotFound) := by
    simp only [generate_clip]
    rw [h]
    simp only [clipDispatch]
  exact ⟨hg, by rw [hg]; rfl⟩

theorem generate_clip_not_found_witness :
    generate_clip ⟨true, true, false, true, false, true⟩
        ⟨["abc.mp4"], [], [], []⟩ ⟨"zzz", 0, 10⟩ "cid" =
      (⟨["abc.mp4"], [], [], []⟩, [], Except.ok ClipResponse.videoNotFound) :=
  (generate_clip_not_found ⟨true, true, false, true, false, true⟩
    ⟨["abc.mp4"], [], [], []⟩ ⟨"zzz", 0, 10⟩ "cid" (by decide)).1

lemma clipExceptBlock_error (rm : Bool) (fs : FS) (cv e : String) :
    (clipExceptBlock rm fs cv e).2 = Except.error e := by
  unfold clipExceptBlock
  by_cases h : cv ∈ fs.clips <;> cases rm <;> simp [h]

lemma clipExceptBlock_audio (rm : Bool) (fs : FS) (cv e : String) :
    (clipExceptBlock rm fs cv e).1.audio = fs.audio := by
  unfold clipExceptBlock
  by_cases h : cv ∈ fs.clips <;> cases rm <;> simp [h]

lemma clipExceptBlock_clips_true (fs : FS) (cv e : String) :
    (clipExceptBlock true fs cv e).1.clips = fs.clips.erase cv := by
  unfold clipExceptBlock
  by_cases h : cv ∈ fs.clips
  · simp [h]
  · simp [h, List.erase_of_not_mem h]

/-- C10: once the source video was located, any failure inside the
clip-creation sequence — the video-clip creation failing in both modes, or
the audio-clip creation failing after the video clip was already written —
removes the video clip file before the original exception propagates
(provided `os.remove` itself succeeds, its failure being swallowed), while
the cleanup never deletes audio clip files: a partial audio clip survives,
and every pre-existing audio file survives in every run. -/
theorem clip_cleanup_behavior (env : ClipEnv) (fs : FS) (data : ClipRequest)
    (clip_id vf : String) (rest : List String)
    (hm : fs.videos.filter (fun f => startsWithB data.video_id f) =
      vf :: rest)
    (hfv : clip_id ++ ".mp4" ∉ fs.clips) :
    (env.copyOk = false → env.reencodeOk = false →
      env.cleanupRemoveOk = true →
      (generate_clip env fs data clip_id).2.2 =
        Except.error "CalledProcessError: ffmpeg video clip" ∧
      clip_id ++ ".mp4" ∉ (generate_clip env fs data clip_id).1.clips) ∧
    ((env.copyOk = true ∨ env.reencodeOk = true) →
      (data.video_id ++ ".wav") ∈ fs.temp → env.audioOk = false →
      env.cleanupRemoveOk = true →
      (generate_clip env fs data clip_id).2.2 =
        Except.error "CalledProcessError: ffmpeg audio clip" ∧
      clip_id ++ ".mp4" ∉ (generate_clip env fs data clip_id).1.clips ∧
      (env.audioPartial = true →
        clip_id ++ ".wav" ∈ (generate_clip env fs data clip_id).1.audio)) ∧
    (∀ x ∈ fs.audio, x ∈ (generate_clip env fs data clip_id).1.audio) := by
  obtain ⟨co, re, rp, ao, ap, cr⟩ := env
  have herase : (fs.clips ++ [clip_id ++ ".mp4"]).erase (clip_id ++ ".mp4") =
      fs.clips := by
    rw [List.erase_append_right _ hfv, List.erase_cons_head, List.append_nil]
  refine ⟨?_, ?_, ?_⟩
  · rintro rfl rfl rfl
    simp only [generate_clip, hm, clipDispatch, Bool.false_eq_true, if_false]
    cases rp with
    | true =>
        simp only [if_true]
        rw [show (clipExceptBlock true
            { fs with clips := fs.clips ++ [clip_id ++ ".mp4"] }
            (clip_id ++ ".mp4")
            "CalledProcessError: ffmpeg video clip").1.clips =
            (fs.clips ++ [clip_id ++ ".mp4"]).erase (clip_id ++ ".mp4") from
          clipExceptBlock_clips_true _ _ _]
        rw [herase]
        exact ⟨clipExceptBlock_error _ _ _ _, hfv⟩
    | false =>
        simp only [Bool.false_eq_true, if_false, List.append_nil]
        rw [show (clipExceptBlock true { fs with clips := fs.clips }
            (clip_id ++ ".mp4")
            "CalledProcessError: ffmpeg video clip").1.clips =
            fs.clips.erase (clip_id ++ ".mp4") from
          clipExceptBlock_clips_true _ _ _]
        rw [List.erase_of_not_mem hfv]
        exact ⟨clipExceptBlock_error _ _ _ _, hfv⟩
  · intro hco ht hao hcr
    subst hao; subst hcr
    have hbody : ∀ tr, (clipAfterVideo ⟨co, re, rp, false, ap, true⟩
        { fs with clips := fs.clips ++ [clip_id ++ ".mp4"] } tr
        (data.video_id ++ ".wav") clip_id (clip_id ++ ".mp4")
        (clip_id ++ ".wav")).2.2 =
          Except.error "CalledProcessError: ffmpeg audio clip" ∧
        clip_id ++ ".mp4" ∉ (clipAfterVideo ⟨co, re, rp, false, ap, true⟩
          { fs with clips := fs.clips ++ [clip_id ++ ".mp4"] } tr
          (data.video_id ++ ".wav") clip_id (clip_id ++ ".mp4")
          (clip_id ++ ".wav")).1.clips ∧
        (ap = true →
          clip_id ++ ".wav" ∈ (clipAfterVideo ⟨co, re, rp, false, ap, true⟩
            { fs with clips := fs.clips ++ [clip_id ++ ".mp4"] } tr
            (data.video_id ++ ".wav") clip_id (clip_id ++ ".mp4")
            (clip_id ++ ".wav")).1.audio) := by
      intro tr
      simp only [clipAfterVideo, ht, if_true, Bool.false_eq_true, if_false]
      refine ⟨clipExceptBlock_error _ _ _ _, ?_, ?_⟩
      · rw [show ∀ fsx : FS, (clipExceptBlock true fsx (clip_id ++ ".mp4")
            "CalledProcessError: ffmpeg audio clip").1.clips =
            fsx.clips.erase (clip_id ++ ".mp4") from
          fun fsx => clipExceptBlock_clips_true _ _ _]
        simp only []
        rw [herase]
        exact hfv
      · intro hap
        subst hap
        rw [clipExceptBlock_audio]
        simp
    cases co with
    | true =>
        simp only [generate_clip, hm, clipDispatch, if_true]
        exact hbody _
    | false =>
        rcases hco with h | h
        · exact absurd h (by simp)
        · subst h
          simp only [generate_clip, hm, clipDispatch, Bool.false_eq_true,
            if_false, if_true]
          exact hbody _
  · intro x hx
    simp only [generate_clip, hm, clipDispatch]
    cases co <;> cases re <;>
      simp only [Bool.false_eq_true, if_false, if_true] <;>
      first
        | (rw [clipExceptBlock_audio]; simpa using hx)
        | (simp only [clipAfterVideo]
           by_cases ht : (data.video_id ++ ".wav") ∈ fs.temp <;>
             cases ao <;>
             simp [ht, clipExceptBlock_audio, List.mem_append, hx])

theorem clip_cleanup_behavior_witness :
    (generate_clip ⟨true, true, false, false, true, true⟩
        ⟨["vid.mp4"], ["vid.wav"], [], []⟩ ⟨"vid", 0, 5⟩ "cid").2.2 =
      Except.error "CalledProcessError: ffmpeg audio clip" ∧
    "cid" ++ ".mp4" ∉ (generate_clip ⟨true, true, false, false, true, true⟩
        ⟨["vid.mp4"], ["vid.wav"], [], []⟩ ⟨"vid", 0, 5⟩ "cid").1.clips ∧
    "cid" ++ ".wav" ∈ (generate_clip ⟨true, true, false, false, true, true⟩
        ⟨["vid.mp4"], ["vid.wav"], [], []⟩ ⟨"vid", 0, 5⟩ "cid").1.audio := by
  have h := (clip_cleanup_behavior ⟨true, true, false, false, true, true⟩
    ⟨["vid.mp4"], ["vid.wav"], [], []⟩ ⟨"vid", 0, 5⟩ "cid" "vid.mp4" []
    (by decide) (by decide)).2.1 (Or.inl rfl) (by decide) rfl rfl
  exact ⟨h.1, h.2.1, h.2.2 rfl⟩

end SpeechBackend
